import Mathlib

/-!
Shallow embedding of `src/entrypoint.py` (protein-binder pipeline
orchestrator) and proofs about its orchestration logic.

Modelling conventions:
* Python strings are Lean `String`s; `str.split()` / `in` / `startswith`
  are re-implemented structurally over `List Char` so the kernel can
  evaluate them.
* Python floats are modelled as `ℚ`; `float(...)` parsing is modelled by
  a decimal parser returning `Option ℚ` (failure corresponds to the
  `ValueError` that the bare `except` in the source turns into `0.0`).
* External effects (S3 download/upload, DynamoDB writes, subprocess
  runs, filesystem globs) are supplied by an `Env` oracle; each
  subprocess invocation and each status write is recorded in an event
  trace so that lifecycle and failure-propagation claims can be stated.
* Exceptions are modelled as `Except String`.
-/

/-- Python `str.split()` helper: accumulates the current word (reversed)
and splits on whitespace, dropping empty fields. -/
def wordsAux : List Char → List Char → List String
  | [], cur => if cur.isEmpty then [] else [String.mk cur.reverse]
  | c :: cs, cur =>
    if c.isWhitespace then
      if cur.isEmpty then wordsAux cs [] else String.mk cur.reverse :: wordsAux cs []
    else wordsAux cs (c :: cur)

/-- Python `line.split()` (split on whitespace runs, no empty fields). -/
def pysplit (s : String) : List String := wordsAux s.toList []

/-- Python `s.startswith(pat)`. -/
def pyStartsWith (s pat : String) : Bool := List.isPrefixOf pat.toList s.toList

/-- List containment of a contiguous segment, used to model Python
`pat in s` on strings. -/
def listContains : List Char → List Char → Bool
  | [], needle => needle.isEmpty
  | c :: hay, needle => List.isPrefixOf needle (c :: hay) || listContains hay needle

/-- Python `pat in s` (substring test). -/
def strContains (s pat : String) : Bool := listContains s.toList pat.toList

/-- Digit-string accumulator for the decimal parser. -/
def goDigits : List Char → Nat → Option Nat
  | [], acc => some acc
  | c :: cs, acc => if c.isDigit then goDigits cs (acc * 10 + (c.toNat - 48)) else none

/-- Value of a non-empty all-digit string. -/
def digitsVal : List Char → Option Nat
  | [] => none
  | l => goDigits l 0

/-- Python `s.split('.')` on a character list. -/
def splitDotAux : List Char → List Char → List (List Char)
  | [], cur => [cur.reverse]
  | c :: cs, cur => if c = '.' then cur.reverse :: splitDotAux cs [] else splitDotAux cs (c :: cur)

/-- Unsigned decimal parser: models `float(...)` on inputs of the shape
`digits`, `digits.digits`, `digits.` or `.digits`. The value
`n.f₁…f_k` is the rational `(n·10^k + f) / 10^k`, built with `mkRat`
so that it evaluates by kernel reduction. -/
def parseUnsigned : List Char → Option ℚ
  | l =>
    match splitDotAux l [] with
    | [ip] => (digitsVal ip).map (fun n => mkRat (Int.ofNat n) 1)
    | [ip, fp] =>
      if ip.isEmpty && fp.isEmpty then none
      else
        match (if ip.isEmpty then some 0 else digitsVal ip),
              (if fp.isEmpty then some 0 else digitsVal fp) with
        | some n, some f => some (mkRat (Int.ofNat (n * 10 ^ fp.length + f)) (10 ^ fp.length))
        | _, _ => none
    | _ => none

/-- Signed decimal parser modelling Python `float(str)`; `none` models
the `ValueError` raised on a malformed literal. -/
def parseDecimal : String → Option ℚ
  | s =>
    match s.toList with
    | '-' :: rest => (parseUnsigned rest).map (fun q => -q)
    | l => parseUnsigned l

/-- Inner token loop of `extract_confidence_score`: the first token equal
to `CONFIDENCE` that is followed by another token yields that next
token; a trailing `CONFIDENCE` is skipped, like the `i+1 < len(parts)`
guard in the source. -/
def scanParts : List String → Option String
  | [] => none
  | p :: rest =>
    if p = "CONFIDENCE" then
      match rest with
      | next :: _ => some next
      | [] => none
    else scanParts rest

/-- Line loop of `extract_confidence_score`: the first line that starts
with `REMARK` and contains `CONFIDENCE`, and whose token list has a
`CONFIDENCE` token followed by a value token, yields that value token. -/
def scanLines : List String → Option String
  | [] => none
  | line :: rest =>
    if pyStartsWith line "REMARK" && strContains line "CONFIDENCE" then
      match scanParts (pysplit line) with
      | some tok => some tok
      | none => scanLines rest
    else scanLines rest

/-- `extract_confidence_score` from the source. The file is `none` when
opening/reading it fails (the bare `except` returns `0.0`), otherwise
its list of lines. A found value token is parsed with `float`; a parse
failure is caught by the same bare `except` and yields `0.0`. -/
def extract_confidence_score (file : Option (List String)) : ℚ :=
  match file with
  | none => 0
  | some lines =>
    match scanLines lines with
    | none => 0
    | some tok => (parseDecimal tok).getD 0

example : extract_confidence_score (some ["REMARK 250 CONFIDENCE 0.91"]) = mkRat 91 100 := by decide
example : extract_confidence_score (some ["ATOM      1  N   MET A   1"]) = 0 := by decide
example : extract_confidence_score (some ["REMARK CONFIDENCE abc"]) = 0 := by decide
example : extract_confidence_score none = 0 := by decide
example : extract_confidence_score (some ["REMARK stuff CONFIDENCE", "REMARK CONFIDENCE 0.5"]) = mkRat 1 2 := by decide

/-- Outcome of one external process run, as observed by
`subprocess.run(..., check=True, capture_output=True, timeout=3600)`:
exit code zero with captured stdout, a `CalledProcessError` carrying the
exit code and captured stderr/stdout, or a `TimeoutExpired` (which also
carries the output captured so far, unused by the source). -/
inductive CmdResult where
  | success (stdout : String)
  | failed (exitCode : Int) (stderr : String) (stdout : String)
  | timedOut (stderr : String) (stdout : String)
deriving DecidableEq

/-- `run_command` from the source: returns captured stdout on exit code
zero; on `CalledProcessError` raises `"{description} failed with exit
code {code}"` plus `STDERR:`/`STDOUT:` sections when non-empty; on
`TimeoutExpired` raises `"{description} timed out after 1 hour"`. -/
def run_command (res : CmdResult) (description : String) : Except String String :=
  match res with
  | CmdResult.success out => Except.ok out
  | CmdResult.failed code stderr stdout =>
    Except.error ((description ++ " failed with exit code " ++ toString code)
      ++ (if stderr = "" then "" else "\nSTDERR: " ++ stderr)
      ++ (if stdout = "" then "" else "\nSTDOUT: " ++ stdout))
  | CmdResult.timedOut _ _ => Except.error (description ++ " timed out after 1 hour")

/-- RFDiffusion argument vector from `run_rfdiffusion` (environment-variable
model paths at their defaults). -/
def rfdiffusion_cmd (inputPdb : String) : List String :=
  ["python", "/work/rfdiffusion/scripts/run_inference.py",
   "inference.input_pdb=" ++ inputPdb,
   "inference.output_prefix=/work/rfdiffusion_output/binder",
   "inference.num_designs=3",
   "contigmap.contigs=[A1-100/0 70-100]",
   "inference.ckpt_override_path=/work/rfdiffusion/models/Base_ckpt.pt"]

/-- ProteinMPNN argument vector for the `i`-th (0-based) scaffold. -/
def proteinmpnn_cmd (scaffoldPdb : String) (i : Nat) : List String :=
  ["python", "/work/proteinmpnn/protein_mpnn_run.py",
   "--pdb_path", scaffoldPdb,
   "--pdb_path_chains", "A",
   "--out_folder", "/work/proteinmpnn_output/scaffold_" ++ toString (i + 1),
   "--num_seq_per_target", "5",
   "--sampling_temp", "0.1",
   "--batch_size", "1",
   "--path_to_model_weights", "/work/proteinmpnn/vanilla_model_weights"]

/-- ColabFold argument vector for the `i`-th (0-based) sequence file. -/
def colabfold_cmd (seqFile : String) (i : Nat) : List String :=
  ["colabfold_batch", seqFile,
   "/work/colabfold_output/prediction_" ++ toString (i + 1),
   "--num-models", "1",
   "--max-msa", "32:128",
   "--use-gpu-relax", "--amber",
   "--num-relax", "1"]

/-- Oracle for all external effects of one job run: whether each status
write / transfer succeeds, the outcome of each external process run
(per fan-out index for the looping stages), the files each run leaves
behind (the glob results), and the content of predicted PDB files. -/
structure Env where
  runningOk : Bool
  downloadOk : Bool
  rfdCmd : CmdResult
  rfdArtifacts : List String
  mpnnCmd : Nat → CmdResult
  mpnnArtifacts : Nat → List String
  cfCmd : Nat → CmdResult
  cfArtifacts : Nat → List String
  fileLines : String → Option (List String)
  uploadOk : Bool
  completedOk : Bool
  failedOk : Bool

/-- Observable event: one status-write attempt (with whether the write
succeeded) or one external process invocation. -/
inductive Event where
  | statusAttempt (status : String) (ok : Bool)
  | cmdRun (cmd : List String) (description : String) (result : CmdResult)
deriving DecidableEq

/-- One scored artifact entry, as appended to `confidence_scores`. -/
structure ScoredEntry where
  file : String
  confidence : ℚ
deriving DecidableEq

/-- `run_rfdiffusion` from the source: one RFDiffusion invocation, then a
glob for `binder_*.pdb`; raises when the command fails or when the glob
finds nothing. -/
def run_rfdiffusion (env : Env) : List Event × Except String (List String) :=
  ([Event.cmdRun (rfdiffusion_cmd "/work/input/target.pdb")
      "RFDiffusion backbone generation" env.rfdCmd],
   match run_command env.rfdCmd "RFDiffusion backbone generation" with
   | Except.error e => Except.error e
   | Except.ok _ =>
     if env.rfdArtifacts.isEmpty then
       Except.error "RFDiffusion did not generate any PDB files"
     else Except.ok env.rfdArtifacts)

/-- Fan-out loop of `run_proteinmpnn`: one invocation per scaffold, in
order, collecting the globbed `**/seqs/*.fa` files of every run; the
first failing command aborts the loop. There is no emptiness check. -/
def mpnnLoop (env : Env) (i : Nat) (acc : List String) :
    List String → List Event × Except String (List String)
  | [] => ([], Except.ok acc)
  | s :: rest =>
    match run_command (env.mpnnCmd i)
        ("ProteinMPNN sequence design for scaffold " ++ toString (i + 1)) with
    | Except.error e =>
      ([Event.cmdRun (proteinmpnn_cmd s i)
          ("ProteinMPNN sequence design for scaffold " ++ toString (i + 1)) (env.mpnnCmd i)],
       Except.error e)
    | Except.ok _ =>
      (Event.cmdRun (proteinmpnn_cmd s i)
          ("ProteinMPNN sequence design for scaffold " ++ toString (i + 1)) (env.mpnnCmd i)
        :: (mpnnLoop env (i + 1) (acc ++ env.mpnnArtifacts i) rest).1,
       (mpnnLoop env (i + 1) (acc ++ env.mpnnArtifacts i) rest).2)

/-- `run_proteinmpnn` from the source. -/
def run_proteinmpnn (env : Env) (scaffolds : List String) :
    List Event × Except String (List String) :=
  mpnnLoop env 0 [] scaffolds

/-- Fan-out loop of `run_colabfold`: one invocation per sequence file, in
order; each run's globbed `*.pdb` files are collected and scored with
`extract_confidence_score`. (The source's `if pred_pdbs:` guard is a
semantic no-op: extending by an empty list adds nothing.) There is no
emptiness check. -/
def cfLoop (env : Env) (i : Nat) (structs : List String) (scores : List ScoredEntry) :
    List String → List Event × Except String (List String × List ScoredEntry)
  | [] => ([], Except.ok (structs, scores))
  | f :: rest =>
    match run_command (env.cfCmd i)
        ("ColabFold structure prediction " ++ toString (i + 1)) with
    | Except.error e =>
      ([Event.cmdRun (colabfold_cmd f i)
          ("ColabFold structure prediction " ++ toString (i + 1)) (env.cfCmd i)],
       Except.error e)
    | Except.ok _ =>
      (Event.cmdRun (colabfold_cmd f i)
          ("ColabFold structure prediction " ++ toString (i + 1)) (env.cfCmd i)
        :: (cfLoop env (i + 1) (structs ++ env.cfArtifacts i)
              (scores ++ (env.cfArtifacts i).map
                (fun p => { file := p, confidence := extract_confidence_score (env.fileLines p) }))
              rest).1,
       (cfLoop env (i + 1) (structs ++ env.cfArtifacts i)
          (scores ++ (env.cfArtifacts i).map
            (fun p => { file := p, confidence := extract_confidence_score (env.fileLines p) }))
          rest).2)

/-- `run_colabfold` from the source: iterates over `sequence_files[:3]`
only (excess sequence artifacts are skipped, not failed). -/
def run_colabfold (env : Env) (seqFiles : List String) :
    List Event × Except String (List String × List ScoredEntry) :=
  cfLoop env 0 [] [] (seqFiles.take 3)

/-- One entry of `final_designs` in `create_final_results`. -/
structure FinalDesign where
  file : String
  confidence_score : ℚ
  original_file : String
deriving DecidableEq

/-- The `results_summary` block of the metrics document. -/
structure ResultsSummary where
  total_designs_generated : Nat
  best_confidence_score : ℚ
  average_confidence_score : ℚ
deriving DecidableEq

/-- The parts of the `confidence_metrics.json` document that depend on
the run (constant fields such as `pipeline_version` are omitted). -/
structure Metrics where
  results_summary : ResultsSummary
  final_designs : List FinalDesign
  all_confidence_scores : List ScoredEntry
deriving DecidableEq

/-- The `next((s for s in confidence_scores if s['file'] == struct.name), None)`
lookup in `create_final_results`: first matching entry's confidence, or
`0.0` when absent. -/
def lookupScore (scores : List ScoredEntry) (name : String) : ℚ :=
  match scores.find? (fun s => s.file == name) with
  | some s => s.confidence
  | none => 0

/-- `create_final_results` from the source: pair every predicted
structure with its looked-up score, stable-sort by score descending
(Python's `list.sort` is stable, and `List.insertionSort` with the
non-strict relation inserts each earlier element before equal later
ones, so the two agree), keep the first three, rename them
`designed_binder_{i+1}.pdb`, and build the metrics document. `max` and
the mean's division are evaluated only on a non-empty selection, with
`0.0` otherwise. -/
def create_final_results (predicted_structures : List String)
    (confidence_scores : List ScoredEntry) : Metrics :=
  let scored := predicted_structures.map (fun s => (s, lookupScore confidence_scores s))
  let sorted := List.insertionSort (fun a b : String × ℚ => b.2 ≤ a.2) scored
  let top := sorted.take 3
  let final_designs := top.enum.map (fun p =>
    { file := "designed_binder_" ++ toString (p.1 + 1) ++ ".pdb"
      confidence_score := p.2.2
      original_file := p.2.1 : FinalDesign })
  let confs := final_designs.map (fun d => d.confidence_score)
  { results_summary :=
      { total_designs_generated := final_designs.length
        best_confidence_score := match confs with | [] => 0 | c :: cs => cs.foldl max c
        average_confidence_score :=
          match confs with
          | [] => 0
          | c :: cs => (c :: cs).sum / ((c :: cs).length : ℚ) }
    final_designs := final_designs
    all_confidence_scores := confidence_scores }

/-- The persisted job record mutated by `update_job_status` (timestamps
are abstracted to naturals; `job_id` is fixed by the environment and
omitted). -/
structure JobRecord where
  status : String
  updated_at : Nat
  completed_at : Option Nat
  error_message : Option String
deriving DecidableEq

/-- `update_job_status` from the source, as the transformation its
unconditional `update_item` applies to the job record: `status` and
`updated_at` are always rewritten, `completed_at` is rewritten exactly
for a `COMPLETED` target, and `error_message` is rewritten whenever a
non-empty message is passed. -/
def update_job_status (r : JobRecord) (status : String) (now : Nat)
    (error_message : Option String) : JobRecord :=
  { status := status
    updated_at := now
    completed_at := if status = "COMPLETED" then some now else r.completed_at
    error_message :=
      match error_message with
      | some e => some e
      | none => r.error_message }

/-- The `try` block of `main` from the source: report `RUNNING` (a
failing write raises), download the input, run the three stages in
order, build the final results, upload them, then report `COMPLETED`
(a failing write raises). The returned trace records every status
attempt and process invocation in order. -/
def runPipeline (env : Env) : List Event × Except String Metrics :=
  if env.runningOk then
    if env.downloadOk then
      match (run_rfdiffusion env).2 with
      | Except.error e =>
        (Event.statusAttempt "RUNNING" true :: (run_rfdiffusion env).1, Except.error e)
      | Except.ok scaffolds =>
        match (run_proteinmpnn env scaffolds).2 with
        | Except.error e =>
          (Event.statusAttempt "RUNNING" true
            :: (run_rfdiffusion env).1 ++ (run_proteinmpnn env scaffolds).1,
           Except.error e)
        | Except.ok seqFiles =>
          match (run_colabfold env seqFiles).2 with
          | Except.error e =>
            (Event.statusAttempt "RUNNING" true
              :: (run_rfdiffusion env).1 ++ (run_proteinmpnn env scaffolds).1
                 ++ (run_colabfold env seqFiles).1,
             Except.error e)
          | Except.ok (structs, scores) =>
            if env.uploadOk then
              if env.completedOk then
                (Event.statusAttempt "RUNNING" true
                  :: (run_rfdiffusion env).1 ++ (run_proteinmpnn env scaffolds).1
                     ++ (run_colabfold env seqFiles).1
                     ++ [Event.statusAttempt "COMPLETED" true],
                 Except.ok (create_final_results structs scores))
              else
                (Event.statusAttempt "RUNNING" true
                  :: (run_rfdiffusion env).1 ++ (run_proteinmpnn env scaffolds).1
                     ++ (run_colabfold env seqFiles).1
                     ++ [Event.statusAttempt "COMPLETED" false],
                 Except.error "status update failed")
            else
              (Event.statusAttempt "RUNNING" true
                :: (run_rfdiffusion env).1 ++ (run_proteinmpnn env scaffolds).1
                   ++ (run_colabfold env seqFiles).1,
               Except.error "upload failed")
    else ([Event.statusAttempt "RUNNING" true], Except.error "download failed")
  else ([Event.statusAttempt "RUNNING" false], Except.error "status update failed")

/-- `main` from the source (named `pipelineMain` since Lean reserves a
bare `main` for executables): on any exception from the `try` block it
attempts one `FAILED` status write — whose own failure is caught and
only logged — and re-raises the original exception unchanged. -/
def pipelineMain (env : Env) : List Event × Except String Metrics :=
  match (runPipeline env).2 with
  | Except.ok m => ((runPipeline env).1, Except.ok m)
  | Except.error e =>
    ((runPipeline env).1 ++ [Event.statusAttempt "FAILED" env.failedOk], Except.error e)

/-- Status extractor for the persisted trace: only successful writes
change the durable job record. -/
def statusOf : Event → Option String
  | Event.statusAttempt s true => some s
  | _ => none

/-- The sequence of successfully persisted status values in a trace. -/
def persisted (evs : List Event) : List String := evs.filterMap statusOf

/-- Whether an event is a process invocation that ended in a non-zero
exit code or a timeout. -/
def eventFailed : Event → Bool
  | Event.cmdRun _ _ (CmdResult.success _) => false
  | Event.cmdRun _ _ _ => true
  | Event.statusAttempt _ _ => false

@[simp] lemma statusOf_cmdRun (c : List String) (d : String) (r : CmdResult) :
    statusOf (Event.cmdRun c d r) = none := rfl

@[simp] lemma statusOf_statusAttempt (s : String) (ok : Bool) :
    statusOf (Event.statusAttempt s ok) = (if ok then some s else none) := by
  cases ok <;> rfl

@[simp] lemma persisted_nil : persisted [] = [] := rfl

@[simp] lemma persisted_cons (ev : Event) (evs : List Event) :
    persisted (ev :: evs) =
      (match statusOf ev with | some s => [s] | none => []) ++ persisted evs := by
  unfold persisted
  cases h : statusOf ev <;> simp [List.filterMap_cons, h]

@[simp] lemma persisted_append (a b : List Event) :
    persisted (a ++ b) = persisted a ++ persisted b := by
  unfold persisted; simp

lemma persisted_rfd (env : Env) : persisted (run_rfdiffusion env).1 = [] := by
  simp [run_rfdiffusion]

lemma persisted_mpnnLoop (env : Env) :
    ∀ (l : List String) (i : Nat) (acc : List String),
      persisted (mpnnLoop env i acc l).1 = [] := by
  intro l
  induction l with
  | nil => intro i acc; simp [mpnnLoop]
  | cons s rest ih =>
    intro i acc
    cases hc : env.mpnnCmd i <;> simp [mpnnLoop, run_command, hc, ih]

lemma persisted_mpnn (env : Env) (scaffolds : List String) :
    persisted (run_proteinmpnn env scaffolds).1 = [] :=
  persisted_mpnnLoop env scaffolds 0 []

lemma persisted_cfLoop (env : Env) :
    ∀ (l : List String) (i : Nat) (structs : List String) (scores : List ScoredEntry),
      persisted (cfLoop env i structs scores l).1 = [] := by
  intro l
  induction l with
  | nil => intro i structs scores; simp [cfLoop]
  | cons f rest ih =>
    intro i structs scores
    cases hc : env.cfCmd i <;> simp [cfLoop, run_command, hc, ih]

lemma persisted_cf (env : Env) (seqFiles : List String) :
    persisted (run_colabfold env seqFiles).1 = [] :=
  persisted_cfLoop env (seqFiles.take 3) 0 [] []

/-- Case analysis on a full `try`-block run with a successful `RUNNING`
write: either it succeeds and persists `RUNNING` then `COMPLETED`, or it
raises and only `RUNNING` is persisted. -/
lemma runPipeline_shape (env : Env) (hR : env.runningOk = true) :
    ((runPipeline env).2.isOk = true ∧ persisted (runPipeline env).1 = ["RUNNING", "COMPLETED"])
    ∨ ((runPipeline env).2.isOk = false ∧ persisted (runPipeline env).1 = ["RUNNING"]) := by
  unfold runPipeline
  rw [hR]
  cases hd : env.downloadOk
  · simp [Except.isOk, Except.toBool]
  · simp only [if_true]
    cases hrfd : (run_rfdiffusion env).2 with
    | error e => simp [persisted_rfd, Except.isOk, Except.toBool]
    | ok scaffolds =>
      dsimp only
      cases hmp : (run_proteinmpnn env scaffolds).2 with
      | error e => simp [persisted_rfd, persisted_mpnn, Except.isOk, Except.toBool]
      | ok seqFiles =>
        dsimp only
        cases hcf : (run_colabfold env seqFiles).2 with
        | error e => simp [persisted_rfd, persisted_mpnn, persisted_cf, Except.isOk, Except.toBool]
        | ok out =>
          cases out with
          | mk structs scores =>
            dsimp only
            cases hu : env.uploadOk
            · simp [persisted_rfd, persisted_mpnn, persisted_cf, Except.isOk, Except.toBool]
            · cases hcmp : env.completedOk <;>
                simp [persisted_rfd, persisted_mpnn, persisted_cf, Except.isOk, Except.toBool]

/-- Every branch of a run whose `RUNNING` write succeeds begins its trace
with the successful `RUNNING` status attempt. -/
lemma runPipeline_head (env : Env) (hR : env.runningOk = true) :
    ∃ evs, (runPipeline env).1 = Event.statusAttempt "RUNNING" true :: evs := by
  unfold runPipeline
  rw [hR]
  cases hd : env.downloadOk
  · exact ⟨[], rfl⟩
  · simp only [if_true]
    cases hrfd : (run_rfdiffusion env).2 with
    | error e => exact ⟨_, rfl⟩
    | ok scaffolds =>
      dsimp only
      cases hmp : (run_proteinmpnn env scaffolds).2 with
      | error e => exact ⟨_, rfl⟩
      | ok seqFiles =>
        dsimp only
        cases hcf : (run_colabfold env seqFiles).2 with
        | error e => exact ⟨_, rfl⟩
        | ok out =>
          cases out with
          | mk structs scores =>
            dsimp only
            cases hu : env.uploadOk
            · exact ⟨_, rfl⟩
            · cases hcmp : env.completedOk <;> exact ⟨_, rfl⟩

/-- Lifecycle shape of a whole `main` run with a reliable status store:
the persisted status sequence is exactly `RUNNING, COMPLETED` on
success and exactly `RUNNING, FAILED` on failure. -/
lemma pipelineMain_shape (env : Env) (hR : env.runningOk = true) (hF : env.failedOk = true) :
    ((pipelineMain env).2.isOk = true ∧ persisted (pipelineMain env).1 = ["RUNNING", "COMPLETED"])
    ∨ ((pipelineMain env).2.isOk = false ∧ persisted (pipelineMain env).1 = ["RUNNING", "FAILED"]) := by
  unfold pipelineMain
  rcases runPipeline_shape env hR with ⟨hok, hp⟩ | ⟨hok, hp⟩
  · cases hr : (runPipeline env).2 with
    | error e => rw [hr] at hok; simp [Except.isOk, Except.toBool] at hok
    | ok m => exact Or.inl ⟨rfl, hp⟩
  · cases hr : (runPipeline env).2 with
    | error e => exact Or.inr ⟨rfl, by simp [hp, hF]⟩
    | ok m => rw [hr] at hok; simp [Except.isOk, Except.toBool] at hok

/-- The trace of a whole `main` run also starts with the successful
`RUNNING` attempt when that write succeeds. -/
lemma pipelineMain_head (env : Env) (hR : env.runningOk = true) :
    ∃ evs, (pipelineMain env).1 = Event.statusAttempt "RUNNING" true :: evs := by
  unfold pipelineMain
  obtain ⟨evs, hevs⟩ := runPipeline_head env hR
  cases hr : (runPipeline env).2 with
  | ok m => exact ⟨evs, hevs⟩
  | error e => rw [hevs]; exact ⟨_, rfl⟩

lemma rfd_ok_events (env : Env) (out : List String)
    (h : (run_rfdiffusion env).2 = Except.ok out) :
    ∀ ev ∈ (run_rfdiffusion env).1, eventFailed ev = false := by
  cases hc : env.rfdCmd <;>
    simp [run_rfdiffusion, run_command, hc, eventFailed] at h ⊢

lemma mpnnLoop_ok_events (env : Env) :
    ∀ (l : List String) (i : Nat) (acc out : List String),
      (mpnnLoop env i acc l).2 = Except.ok out →
      ∀ ev ∈ (mpnnLoop env i acc l).1, eventFailed ev = false := by
  intro l
  induction l with
  | nil => intro i acc out _; simp [mpnnLoop]
  | cons s rest ih =>
    intro i acc out h
    cases hc : env.mpnnCmd i with
    | success so =>
      rw [mpnnLoop] at h ⊢
      simp only [run_command, hc] at h ⊢
      intro ev hev
      rcases List.mem_cons.mp hev with rfl | hmem
      · simp [eventFailed]
      · exact ih (i + 1) (acc ++ env.mpnnArtifacts i) out h ev hmem
    | failed code se so => rw [mpnnLoop] at h; simp [run_command, hc] at h
    | timedOut se so => rw [mpnnLoop] at h; simp [run_command, hc] at h

lemma cfLoop_ok_events (env : Env) :
    ∀ (l : List String) (i : Nat) (structs : List String) (scores : List ScoredEntry)
      (out : List String × List ScoredEntry),
      (cfLoop env i structs scores l).2 = Except.ok out →
      ∀ ev ∈ (cfLoop env i structs scores l).1, eventFailed ev = false := by
  intro l
  induction l with
  | nil => intro i structs scores out _; simp [cfLoop]
  | cons f rest ih =>
    intro i structs scores out h
    cases hc : env.cfCmd i with
    | success so =>
      rw [cfLoop] at h ⊢
      simp only [run_command, hc] at h ⊢
      intro ev hev
      rcases List.mem_cons.mp hev with rfl | hmem
      · simp [eventFailed]
      · exact ih (i + 1) _ _ out h ev hmem
    | failed code se so => rw [cfLoop] at h; simp [run_command, hc] at h
    | timedOut se so => rw [cfLoop] at h; simp [run_command, hc] at h

/-- A `try`-block run either raises, or every command event in its trace
is a successful invocation (a failing process aborts the run). -/
lemma runPipeline_error_or_allok (env : Env) :
    ((runPipeline env).2.isOk = false) ∨ (∀ ev ∈ (runPipeline env).1, eventFailed ev = false) := by
  unfold runPipeline
  cases hR : env.runningOk
  · left; rfl
  · simp only [if_true]
    cases hd : env.downloadOk
    · left; rfl
    · simp only [if_true]
      cases hrfd : (run_rfdiffusion env).2 with
      | error e => left; rfl
      | ok scaffolds =>
        dsimp only
        cases hmp : (run_proteinmpnn env scaffolds).2 with
        | error e => left; rfl
        | ok seqFiles =>
          dsimp only
          cases hcf : (run_colabfold env seqFiles).2 with
          | error e => left; rfl
          | ok out =>
            cases out with
            | mk structs scores =>
              dsimp only
              cases hu : env.uploadOk
              · left; rfl
              · simp only [if_true]
                cases hcmp : env.completedOk
                · left; rfl
                · simp only [if_true]
                  right
                  intro ev hev
                  simp only [List.mem_cons, List.mem_append, List.mem_singleton,
                    or_assoc] at hev
                  rcases hev with rfl | h1 | h2 | h3 | rfl | h5
                  · rfl
                  · exact rfd_ok_events env scaffolds hrfd ev h1
                  · exact mpnnLoop_ok_events env scaffolds 0 [] seqFiles hmp ev h2
                  · exact cfLoop_ok_events env (seqFiles.take 3) 0 [] []
                      (structs, scores) hcf ev h3
                  · rfl
                  · cases h5

/-- A failing command event anywhere in a `main` trace means the `try`
block raised. -/
lemma pipelineMain_failedEvent (env : Env)
    (h : ∃ ev ∈ (pipelineMain env).1, eventFailed ev = true) :
    (runPipeline env).2.isOk = false := by
  rcases h with ⟨ev, hev, hf⟩
  rcases runPipeline_error_or_allok env with hok | hall
  · exact hok
  · exfalso
    have hev' : ev ∈ (runPipeline env).1 := by
      unfold pipelineMain at hev
      cases hr : (runPipeline env).2 with
      | ok m =>
        rw [hr] at hev
        simpa using hev
      | error e =>
        rw [hr] at hev
        simp only [List.mem_append, List.mem_singleton] at hev
        rcases hev with hev | rfl
        · exact hev
        · simp [eventFailed] at hf
    have hy := hall ev hev'
    rw [hy] at hf
    exact Bool.false_ne_true hf

lemma isPrefixOf_self_append : ∀ (p rest : List Char), List.isPrefixOf p (p ++ rest) = true := by
  intro p
  induction p with
  | nil => intro rest; cases rest <;> rfl
  | cons c cs ih => intro rest; simp [List.isPrefixOf, ih]

lemma listContains_nil : ∀ hay : List Char, listContains hay [] = true := by
  intro hay
  cases hay <;> simp [listContains, List.isPrefixOf]

lemma listContains_mid : ∀ (a b c : List Char), listContains (a ++ (b ++ c)) b = true := by
  intro a
  induction a with
  | nil =>
    intro b c
    cases b with
    | nil => simpa using listContains_nil c
    | cons x bs => simp [listContains, List.isPrefixOf, isPrefixOf_self_append]
  | cons x as ih =>
    intro b c
    simp [listContains, ih]

lemma strContains_mid (a b c : String) : strContains (a ++ (b ++ c)) b = true := by
  unfold strContains
  have : (a ++ (b ++ c)).toList = a.toList ++ (b.toList ++ c.toList) := by
    simp [String.toList, String.data_append]
  rw [this]
  exact listContains_mid _ _ _

lemma mpnnLoop_empty (env : Env)
    (hcmd : ∀ i, ∃ s, env.mpnnCmd i = CmdResult.success s)
    (hart : ∀ i, env.mpnnArtifacts i = []) :
    ∀ (l : List String) (i : Nat), (mpnnLoop env i [] l).2 = Except.ok [] := by
  intro l
  induction l with
  | nil => intro i; rfl
  | cons s rest ih =>
    intro i
    obtain ⟨so, hso⟩ := hcmd i
    rw [mpnnLoop]
    simp only [run_command, hso, hart i, List.append_nil]
    exact ih (i + 1)

lemma cfLoop_empty (env : Env)
    (hcmd : ∀ i, ∃ s, env.cfCmd i = CmdResult.success s)
    (hart : ∀ i, env.cfArtifacts i = []) :
    ∀ (l : List String) (i : Nat), (cfLoop env i [] [] l).2 = Except.ok ([], []) := by
  intro l
  induction l with
  | nil => intro i; rfl
  | cons f rest ih =>
    intro i
    obtain ⟨so, hso⟩ := hcmd i
    rw [cfLoop]
    simp only [run_command, hso, hart i, List.map_nil, List.append_nil]
    exact ih (i + 1)

lemma cfLoop_events_of_success (env : Env)
    (hcmd : ∀ i, ∃ s, env.cfCmd i = CmdResult.success s) :
    ∀ (l : List String) (i : Nat) (structs : List String) (scores : List ScoredEntry),
      (cfLoop env i structs scores l).1 =
        (l.enumFrom i).map (fun p =>
          Event.cmdRun (colabfold_cmd p.2 p.1)
            ("ColabFold structure prediction " ++ toString (p.1 + 1)) (env.cfCmd p.1))
      ∧ ∃ out, (cfLoop env i structs scores l).2 = Except.ok out := by
  intro l
  induction l with
  | nil => intro i structs scores; exact ⟨rfl, ⟨_, rfl⟩⟩
  | cons f rest ih =>
    intro i structs scores
    obtain ⟨so, hso⟩ := hcmd i
    rw [cfLoop]
    simp only [run_command, hso, List.enumFrom, List.map_cons]
    constructor
    · rw [(ih (i + 1) _ _).1]
    · exact (ih (i + 1) _ _).2

deriving instance DecidableEq for Except

/-- All-success environment whose final stage produces zero predicted
structures (all commands exit 0, ColabFold's output glob is empty). -/
def envZero : Env :=
  { runningOk := true
    downloadOk := true
    rfdCmd := CmdResult.success ""
    rfdArtifacts := ["binder_0.pdb"]
    mpnnCmd := fun _ => CmdResult.success ""
    mpnnArtifacts := fun _ => ["seq.fa"]
    cfCmd := fun _ => CmdResult.success ""
    cfArtifacts := fun _ => []
    fileLines := fun _ => none
    uploadOk := true
    completedOk := true
    failedOk := true }

/-- Scenario D fixture: four predicted structures whose files carry
confidence annotations 0.91, 0.40, 0.91, and no annotation at all. -/
def filesD : String → Option (List String) := fun p =>
  if p = "pred_a.pdb" then some ["REMARK 250 CONFIDENCE 0.91"]
  else if p = "pred_b.pdb" then some ["REMARK 250 CONFIDENCE 0.40"]
  else if p = "pred_c.pdb" then some ["REMARK 250 CONFIDENCE 0.91"]
  else if p = "pred_d.pdb" then some ["ATOM      1  N   MET A   1"]
  else none

/-- Scenario D discovery order of the predicted structures. -/
def structsD : List String := ["pred_a.pdb", "pred_b.pdb", "pred_c.pdb", "pred_d.pdb"]

/-- Scenario D score entries, exactly as `run_colabfold` would build them
from the files. -/
def scoresD : List ScoredEntry :=
  structsD.map (fun p => { file := p, confidence := extract_confidence_score (filesD p) })

/-- C1: on final artifacts scored `[0.91, 0.40, 0.91, unscored]` with
K = 3, the selector returns the first-discovered 0.91 artifact, then the
second 0.91 artifact, then the 0.40 artifact, in that order, and the
unscored artifact is excluded from the selection; ties keep discovery
order. -/
theorem scenario_d_selection :
    scoresD.map (fun s => s.confidence) = [mkRat 91 100, mkRat 2 5, mkRat 91 100, 0]
    ∧ (create_final_results structsD scoresD).final_designs.map (fun d => d.original_file)
        = ["pred_a.pdb", "pred_c.pdb", "pred_b.pdb"]
    ∧ "pred_d.pdb" ∉
        (create_final_results structsD scoresD).final_designs.map (fun d => d.original_file) := by
  refine ⟨?_, ?_, ?_⟩ <;> with_unfolding_all decide

/-- C5: the selector always selects exactly `min(N, K)` artifacts, with
K fixed at 3 in the source. -/
theorem topk_size_invariant (predicted_structures : List String)
    (confidence_scores : List ScoredEntry) :
    (create_final_results predicted_structures confidence_scores).final_designs.length
      = min predicted_structures.length 3 := by
  unfold create_final_results
  simp only [List.length_map, List.enum, List.enumFrom_length, List.length_take,
    List.length_insertionSort]
  exact Nat.min_comm _ _

/-- C6: the structure-prediction stage performs exactly
`min(number of sequence artifacts, 3)` invocations, processing the first
sequence artifacts in order, and skipping the excess is not a failure. -/
theorem colabfold_bounded_fanout (env : Env) (seqFiles : List String)
    (hcmd : ∀ i, ∃ s, env.cfCmd i = CmdResult.success s) :
    (run_colabfold env seqFiles).1 =
      (seqFiles.take 3).enum.map (fun p =>
        Event.cmdRun (colabfold_cmd p.2 p.1)
          ("ColabFold structure prediction " ++ toString (p.1 + 1)) (env.cfCmd p.1))
    ∧ (run_colabfold env seqFiles).1.length = min seqFiles.length 3
    ∧ ∃ out, (run_colabfold env seqFiles).2 = Except.ok out := by
  have h := cfLoop_events_of_success env hcmd (seqFiles.take 3) 0 [] []
  refine ⟨h.1, ?_, h.2⟩
  show (cfLoop env 0 [] [] (seqFiles.take 3)).1.length = _
  rw [h.1]
  simp only [List.length_map, List.enumFrom_length, List.length_take]
  exact Nat.min_comm _ _

/-- C6 witness: with 4 sequence artifacts exactly 3 invocations happen,
over the first three files in order, and the stage returns normally. -/
theorem colabfold_bounded_fanout_check :
    (run_colabfold envZero ["f1", "f2", "f3", "f4"]).1 =
      ((["f1", "f2", "f3", "f4"].take 3).enum.map (fun p =>
        Event.cmdRun (colabfold_cmd p.2 p.1)
          ("ColabFold structure prediction " ++ toString (p.1 + 1)) (envZero.cfCmd p.1)))
    ∧ (run_colabfold envZero ["f1", "f2", "f3", "f4"]).1.length = min 4 3
    ∧ ∃ out, (run_colabfold envZero ["f1", "f2", "f3", "f4"]).2 = Except.ok out :=
  colabfold_bounded_fanout envZero ["f1", "f2", "f3", "f4"] (fun _ => ⟨"", rfl⟩)

/-- C10: with zero selected designs the metrics document is still
produced (the mean's division is guarded): count 0, best 0.0, mean 0.0,
and the job terminates COMPLETED. -/
theorem empty_selection_completes :
    (pipelineMain envZero).2 = Except.ok (create_final_results [] [])
    ∧ (create_final_results [] []).final_designs = []
    ∧ (create_final_results [] []).results_summary.total_designs_generated = 0
    ∧ (create_final_results [] []).results_summary.best_confidence_score = 0
    ∧ (create_final_results [] []).results_summary.average_confidence_score = 0
    ∧ persisted (pipelineMain envZero).1 = ["RUNNING", "COMPLETED"] := by
  refine ⟨?_, ?_, ?_, ?_, ?_, ?_⟩ <;> with_unfolding_all decide

/-- Environment in which every external command exits 0 but every stage's
output glob comes back empty. -/
def envNoArtifacts : Env :=
  { runningOk := true
    downloadOk := true
    rfdCmd := CmdResult.success ""
    rfdArtifacts := []
    mpnnCmd := fun _ => CmdResult.success ""
    mpnnArtifacts := fun _ => []
    cfCmd := fun _ => CmdResult.success ""
    cfArtifacts := fun _ => []
    fileLines := fun _ => none
    uploadOk := true
    completedOk := true
    failedOk := true }

/-- C2 counterexample: with one scaffold whose ProteinMPNN run exits 0
but yields zero sequence files, the sequence-design stage returns a
silently empty result instead of failing; the structure-prediction stage
does the same on zero predicted structures. -/
theorem stage_empty_silent_cex :
    (run_proteinmpnn envNoArtifacts ["binder_0.pdb"]).2 = Except.ok ([] : List String)
    ∧ (run_colabfold envNoArtifacts ["seq.fa"]).2
        = Except.ok (([] : List String), ([] : List ScoredEntry)) := by
  exact ⟨rfl, rfl⟩

/-- C2 amended: only the scaffold-generation stage fails on zero output
artifacts; the sequence-design and structure-prediction stages return
silently empty results when their runs succeed but produce nothing. -/
theorem stage_empty_artifacts_behavior (env : Env) (s : String)
    (scaffolds seqFiles : List String)
    (hrfd : env.rfdCmd = CmdResult.success s) (hart : env.rfdArtifacts = [])
    (hmp : ∀ i, ∃ t, env.mpnnCmd i = CmdResult.success t)
    (hma : ∀ i, env.mpnnArtifacts i = [])
    (hcf : ∀ i, ∃ t, env.cfCmd i = CmdResult.success t)
    (hca : ∀ i, env.cfArtifacts i = []) :
    (run_rfdiffusion env).2 = Except.error "RFDiffusion did not generate any PDB files"
    ∧ (run_proteinmpnn env scaffolds).2 = Except.ok []
    ∧ (run_colabfold env seqFiles).2 = Except.ok ([], []) := by
  refine ⟨?_, mpnnLoop_empty env hmp hma scaffolds 0, cfLoop_empty env hcf hca (seqFiles.take 3) 0⟩
  simp [run_rfdiffusion, run_command, hrfd, hart]

/-- C2 witness for the amended statement, at the all-empty environment. -/
theorem stage_empty_artifacts_check :
    (run_rfdiffusion envNoArtifacts).2
        = Except.error "RFDiffusion did not generate any PDB files"
    ∧ (run_proteinmpnn envNoArtifacts ["binder_0.pdb"]).2 = Except.ok []
    ∧ (run_colabfold envNoArtifacts ["seq.fa"]).2 = Except.ok ([], []) :=
  stage_empty_artifacts_behavior envNoArtifacts "" ["binder_0.pdb"] ["seq.fa"]
    rfl rfl (fun _ => ⟨"", rfl⟩) (fun _ => rfl) (fun _ => ⟨"", rfl⟩) (fun _ => rfl)

/-- C3: with a reliable status store, every run reports `RUNNING` as its
very first externally visible event — before any stage executes — and
the persisted status sequence is exactly `PENDING → RUNNING →
COMPLETED` or `PENDING → RUNNING → FAILED`: one terminal status, no
out-of-order transition, nothing after a terminal state. -/
theorem status_lifecycle (env : Env) (hR : env.runningOk = true) (hF : env.failedOk = true) :
    (∃ evs, (pipelineMain env).1 = Event.statusAttempt "RUNNING" true :: evs)
    ∧ (persisted (pipelineMain env).1 = ["RUNNING", "COMPLETED"]
       ∨ persisted (pipelineMain env).1 = ["RUNNING", "FAILED"]) := by
  refine ⟨pipelineMain_head env hR, ?_⟩
  rcases pipelineMain_shape env hR hF with ⟨_, hp⟩ | ⟨_, hp⟩
  · exact Or.inl hp
  · exact Or.inr hp

/-- C3 witness at the concrete all-success environment. -/
theorem status_lifecycle_check :
    (∃ evs, (pipelineMain envZero).1 = Event.statusAttempt "RUNNING" true :: evs)
    ∧ (persisted (pipelineMain envZero).1 = ["RUNNING", "COMPLETED"]
       ∨ persisted (pipelineMain envZero).1 = ["RUNNING", "FAILED"]) :=
  status_lifecycle envZero rfl rfl

/-- C7 counterexample: calling the status update twice with the same
target status does change the persisted record — the second call
rewrites `updated_at` (from 1 to 2 here). -/
theorem duplicate_update_changes_record :
    update_job_status (update_job_status ⟨"PENDING", 0, none, none⟩ "RUNNING" 1 none)
        "RUNNING" 2 none
      ≠ update_job_status ⟨"PENDING", 0, none, none⟩ "RUNNING" 1 none := by
  decide

/-- C7 amended: a duplicate update with an unchanged target status leaves
the status field unchanged and is absorbed — two calls equal one call at
the later write time — but it is not a strict no-op, because
`updated_at` (and `completed_at` for `COMPLETED`) are rewritten
unconditionally. -/
theorem duplicate_update_absorbs (r : JobRecord) (s : String) (t1 t2 : Nat)
    (e : Option String) :
    update_job_status (update_job_status r s t1 e) s t2 e = update_job_status r s t2 e
    ∧ (update_job_status (update_job_status r s t1 e) s t2 e).status
        = (update_job_status r s t1 e).status := by
  constructor
  · cases e <;> simp [update_job_status] <;> split_ifs <;> rfl
  · rfl

/-- Failure environment whose status store rejects the `FAILED` write. -/
def envDownloadFail : Env :=
  { envZero with downloadOk := false, failedOk := false }

/-- C8: when the pipeline fails with error E and the subsequent `FAILED`
status write itself fails, the secondary failure is recorded in the
trace but the error raised to the caller is still exactly E. -/
theorem original_error_not_masked (env : Env) (e : String)
    (hf : env.failedOk = false) (hp : (runPipeline env).2 = Except.error e) :
    (pipelineMain env).2 = Except.error e
    ∧ (pipelineMain env).1 = (runPipeline env).1 ++ [Event.statusAttempt "FAILED" false] := by
  unfold pipelineMain
  rw [hp]
  exact ⟨rfl, by rw [hf]⟩

/-- C8 witness: a failing download with a failing `FAILED` write still
surfaces the original download error. -/
theorem original_error_not_masked_check :
    (pipelineMain envDownloadFail).2 = Except.error "download failed"
    ∧ (pipelineMain envDownloadFail).1
        = (runPipeline envDownloadFail).1 ++ [Event.statusAttempt "FAILED" false] :=
  original_error_not_masked envDownloadFail "download failed" rfl rfl

lemma scanLines_eq_none :
    ∀ lines : List String,
      (∀ l ∈ lines, (pyStartsWith l "REMARK" && strContains l "CONFIDENCE") = false) →
      scanLines lines = none := by
  intro lines
  induction lines with
  | nil => intro _; rfl
  | cons l rest ih =>
    intro h
    rw [scanLines]
    simp only [h l (List.mem_cons_self l rest), Bool.false_eq_true, if_false]
    exact ih (fun x hx => h x (List.mem_cons_of_mem l hx))

/-- C9: the confidence scorer is total: an unreadable file, a file with
no `REMARK`-plus-`CONFIDENCE` line, or a malformed value all yield 0.0,
and when the scan finds a value token the result is its parsed value
(0.0 again if parsing fails). -/
theorem confidence_scorer_total (lines : List String) :
    extract_confidence_score none = 0
    ∧ ((∀ l ∈ lines, (pyStartsWith l "REMARK" && strContains l "CONFIDENCE") = false) →
        extract_confidence_score (some lines) = 0)
    ∧ (∀ tok, scanLines lines = some tok →
        extract_confidence_score (some lines) = (parseDecimal tok).getD 0) := by
  refine ⟨rfl, ?_, ?_⟩
  · intro h
    simp [extract_confidence_score, scanLines_eq_none lines h]
  · intro tok htok
    simp [extract_confidence_score, htok]

/-- C9 witness: a file with no annotation scores 0; a well-formed
annotation `CONFIDENCE 0.91` scores 0.91. -/
theorem confidence_scorer_total_check :
    extract_confidence_score (some ["ATOM      1  N   MET A   1"]) = 0
    ∧ extract_confidence_score (some ["REMARK 250 CONFIDENCE 0.91"]) = mkRat 91 100 := by
  constructor
  · exact (confidence_scorer_total ["ATOM      1  N   MET A   1"]).2.1 (by decide)
  · exact ((confidence_scorer_total ["REMARK 250 CONFIDENCE 0.91"]).2.2 "0.91"
      (by decide)).trans (by decide)

lemma listContains_append_right (a : List Char) {hay n : List Char}
    (h : listContains hay n = true) : listContains (a ++ hay) n = true := by
  induction a with
  | nil => exact h
  | cons x as ih => simp [listContains, ih]

lemma listContains_self_append (b c : List Char) : listContains (b ++ c) b = true := by
  simpa using listContains_mid [] b c

lemma listContains_refl (b : List Char) : listContains b b = true := by
  have := listContains_self_append b []
  simpa using this

lemma pipelineMain_isOk (env : Env) :
    (pipelineMain env).2.isOk = (runPipeline env).2.isOk := by
  unfold pipelineMain
  cases hr : (runPipeline env).2 <;> simp [Except.isOk, Except.toBool]

/-- C4 counterexample: a timed-out invocation raises an error carrying
only the description — the captured stderr (`"boom"` here) is dropped,
contradicting "carrying the description and captured stderr/stdout" for
the timeout case. -/
theorem timeout_message_drops_stderr :
    run_command (CmdResult.timedOut "boom" "out") "ColabFold structure prediction 1"
      = Except.error "ColabFold structure prediction 1 timed out after 1 hour"
    ∧ strContains "ColabFold structure prediction 1 timed out after 1 hour" "boom" = false := by
  constructor
  · rfl
  · decide

/-- C4 amended: a non-zero exit raises an error whose message carries the
description and the captured stderr and stdout; a timeout raises an
error carrying the description only; and any failing invocation during
a run (with a reliable status store) ends with persisted statuses
`RUNNING, FAILED` — never `COMPLETED`. -/
theorem stage_failure_statuses (env : Env) (code : Int) (se so desc : String)
    (hR : env.runningOk = true) (hF : env.failedOk = true)
    (hfail : ∃ ev ∈ (pipelineMain env).1, eventFailed ev = true) :
    (∃ m, run_command (CmdResult.failed code se so) desc = Except.error m
        ∧ strContains m desc = true ∧ strContains m se = true ∧ strContains m so = true)
    ∧ (∃ m, run_command (CmdResult.timedOut se so) desc = Except.error m
        ∧ strContains m desc = true)
    ∧ persisted (pipelineMain env).1 = ["RUNNING", "FAILED"]
    ∧ "COMPLETED" ∉ persisted (pipelineMain env).1 := by
  have hk := pipelineMain_failedEvent env hfail
  have hper : persisted (pipelineMain env).1 = ["RUNNING", "FAILED"] := by
    rcases pipelineMain_shape env hR hF with ⟨hok, _⟩ | ⟨_, hp⟩
    · exfalso
      rw [pipelineMain_isOk env, hk] at hok
      exact Bool.false_ne_true hok
    · exact hp
  refine ⟨⟨_, rfl, ?_, ?_, ?_⟩, ⟨_, rfl, ?_⟩, hper, by rw [hper]; decide⟩
  · simp only [strContains, String.toList, String.data_append, List.append_assoc]
    exact listContains_self_append _ _
  · by_cases hse : se = ""
    · rw [hse]
      exact listContains_nil _
    · rw [if_neg hse]
      simp only [strContains, String.toList, String.data_append, List.append_assoc]
      apply listContains_append_right
      apply listContains_append_right
      apply listContains_append_right
      apply listContains_append_right
      exact listContains_self_append _ _
  · by_cases hso : so = ""
    · rw [hso]
      exact listContains_nil _
    · rw [if_neg hso]
      simp only [strContains, String.toList, String.data_append, List.append_assoc]
      apply listContains_append_right
      apply listContains_append_right
      apply listContains_append_right
      apply listContains_append_right
      apply listContains_append_right
      exact listContains_refl _
  · simp only [strContains, String.toList, String.data_append, List.append_assoc]
    exact listContains_self_append _ _

/-- Environment whose RFDiffusion invocation exits with code 1. -/
def envRfdFails : Env :=
  { envZero with rfdCmd := CmdResult.failed 1 "boom" "out" }

/-- C4 witness at a concrete failing RFDiffusion invocation. -/
theorem stage_failure_statuses_check :
    (∃ m, run_command (CmdResult.failed 1 "boom" "out") "RFDiffusion backbone generation"
        = Except.error m
        ∧ strContains m "RFDiffusion backbone generation" = true
        ∧ strContains m "boom" = true ∧ strContains m "out" = true)
    ∧ (∃ m, run_command (CmdResult.timedOut "boom" "out") "RFDiffusion backbone generation"
        = Except.error m ∧ strContains m "RFDiffusion backbone generation" = true)
    ∧ persisted (pipelineMain envRfdFails).1 = ["RUNNING", "FAILED"]
    ∧ "COMPLETED" ∉ persisted (pipelineMain envRfdFails).1 :=
  stage_failure_statuses envRfdFails 1 "boom" "out" "RFDiffusion backbone generation" rfl rfl
    (by with_unfolding_all decide)
